import Mathlib

/-!
Verification development for the Chainat flood-alert notification job
(`src/main.py`).  The Python source is shallowly embedded: real numbers
become `ℚ`, fallible acquisitions become `Option`/`Except`, the HTTP
responses become explicit parameters, and `datetime.now` becomes an
explicit `timestamp : String` parameter.  Number formatting mirrors the
Python f-string conversions used by the source (`:.2f`, `:,`, `round`)
via exact rational arithmetic with round-half-to-even.
-/

namespace Chainat

/-! ### Python-style number formatting -/

/-- Two-digit zero padding, as produced by `%02d`-style rendering of the
fractional part of a `.2f` conversion. -/
def pad2 (k : ℕ) : String := if k < 10 then "0" ++ toString k else toString k

/-- Round a rational to the nearest integer, ties to even (Python / IEEE
rounding used by `format` and `round`). -/
def roundHalfEven (q : ℚ) : ℤ :=
  let f : ℤ := ⌊q⌋
  let r : ℚ := q - f
  if r < 1/2 then f else if 1/2 < r then f + 1 else if f % 2 = 0 then f else f + 1

/-- Python `f"{x:.2f}"` on the rational model of a float. -/
def fmt2 (q : ℚ) : String :=
  let n : ℕ := (roundHalfEven (|q| * 100)).toNat
  (if q < 0 then "-" else "") ++ toString (n / 100) ++ "." ++ pad2 (n % 100)

/-- Python `round(x, 1)` followed by string conversion of the float. -/
def fmtRound1 (q : ℚ) : String :=
  let n : ℕ := (roundHalfEven (|q| * 10)).toNat
  (if q < 0 then "-" else "") ++ toString (n / 10) ++ "." ++ toString (n % 10)

/-- Insert a comma after every third emitted character of a reversed digit
list, except at the very end (helper for thousands grouping). -/
def commaRevAux : List Char → ℕ → List Char
  | [], _ => []
  | [c], _ => [c]
  | c :: cs, k => if k = 2 then c :: ',' :: commaRevAux cs 0 else c :: commaRevAux cs (k + 1)

/-- Decimal rendering of a natural number with thousands separators. -/
def commaNat (n : ℕ) : String := String.mk ((commaRevAux (Nat.repr n).data.reverse 0).reverse)

/-- Python `f"{n:,}"` for an `int`. -/
def fmtCommaInt (n : ℤ) : String := (if n < 0 then "-" else "") ++ commaNat n.natAbs

/-- Decimal digits of a fractional part `0 ≤ r < 1`, fuel-bounded.
Terminating decimals stop at the last nonzero digit. -/
def fracDigits : ℕ → ℚ → List Char
  | 0, _ => []
  | fuel + 1, r =>
    if r = 0 then []
    else
      let d : ℕ := (⌊r * 10⌋).toNat
      Nat.digitChar d :: fracDigits fuel (r * 10 - (d : ℚ))

/-- Python `f"{x:,}"` for a float whose value has a terminating decimal
expansion: integer part grouped with commas, fractional digits after a
point, `".0"` when the value is integral. -/
def fmtCommaRat (q : ℚ) : String :=
  let ip : ℕ := (⌊|q|⌋).toNat
  let ds : List Char := fracDigits 30 (|q| - (⌊|q|⌋ : ℚ))
  (if q < 0 then "-" else "") ++ commaNat ip ++ "." ++
    (if ds = [] then "0" else String.mk ds)

/-! ### Risk classifier and message composer (`analyze_and_create_message`) -/

/-- Severity tier of the alert report. -/
inductive Tier : Type
  | NORMAL : Tier
  | WATCH : Tier
  | CRITICAL : Tier
deriving DecidableEq, Repr

/-- Guard of the CRITICAL branch:
`dam_discharge is not None and (dam_discharge > 2400 or distance_to_bank < 1.0)`. -/
def critCond (dam_discharge : Option ℚ) (distance_to_bank : ℚ) : Bool :=
  match dam_discharge with
  | some x => decide (x > 2400) || decide (distance_to_bank < 1)
  | none => false

/-- Guard of the WATCH branch:
`dam_discharge is not None and (dam_discharge > 1800 or distance_to_bank < 2.0)`. -/
def watchCond (dam_discharge : Option ℚ) (distance_to_bank : ℚ) : Bool :=
  match dam_discharge with
  | some x => decide (x > 1800) || decide (distance_to_bank < 2)
  | none => false

/-- The `if / elif / else` of the source, yielding `(ICON, HEADER, summary_lines)`. -/
def analyze_branch (water_level : ℚ) (dam_discharge : Option ℚ) (bank_height : ℚ) :
    String × String × List String :=
  let distance_to_bank := bank_height - water_level
  if critCond dam_discharge distance_to_bank then
    ("🟥", "‼️ ประกาศเตือนภัยระดับสูงสุด ‼️",
      ["คำแนะนำ:",
       "1. เตรียมพร้อมอพยพหากอยู่ในพื้นที่เสี่ยง",
       "2. ขนย้ายทรัพย์สินขึ้นที่สูงโดยด่วน",
       "3. งดใช้เส้นทางสัญจรริมแม่น้ำ"])
  else if watchCond dam_discharge distance_to_bank then
    ("🟨", "‼️ ประกาศเฝ้าระวัง ‼️",
      ["คำแนะนำ:",
       "1. บ้านเรือนริมตลิ่งนอกคันกั้นน้ำ ให้เริ่มขนของขึ้นที่สูง",
       "2. ติดตามสถานการณ์อย่างใกล้ชิด"])
  else
    ("🟩", "สถานะปกติ",
      ["ระดับน้ำยังห่างตลิ่ง " ++ fmt2 distance_to_bank ++ " ม. ถือว่า \"ปลอดภัย\" ✅",
       "ประชาชนใช้ชีวิตได้ตามปกติครับ"])

/-- Tier as decided by the source's branch guards. -/
def tierOf (water_level : ℚ) (dam_discharge : Option ℚ) (bank_height : ℚ) : Tier :=
  let distance_to_bank := bank_height - water_level
  if critCond dam_discharge distance_to_bank then .CRITICAL
  else if watchCond dam_discharge distance_to_bank then .WATCH
  else .NORMAL

/-- Modelled from the spec's words (§4.1): classification in the fixed
order CRITICAL / WATCH / NORMAL for a required, non-null discharge.  Used
only to compare against the source's `tierOf`. -/
def tierSpecOrder (water_level dam_discharge bank_height : ℚ) : Tier :=
  if dam_discharge > 2400 ∨ bank_height - water_level < 1 then .CRITICAL
  else if dam_discharge > 1800 ∨ bank_height - water_level < 2 then .WATCH
  else .NORMAL

/-- Icon attached to each tier in the source's branches. -/
def tierIcon : Tier → String
  | .CRITICAL => "🟥"
  | .WATCH => "🟨"
  | .NORMAL => "🟩"

/-- Header attached to each tier in the source's branches. -/
def tierHeader : Tier → String
  | .CRITICAL => "‼️ ประกาศเตือนภัยระดับสูงสุด ‼️"
  | .WATCH => "‼️ ประกาศเฝ้าระวัง ‼️"
  | .NORMAL => "สถานะปกติ"

set_option linter.unusedVariables false in
/-- The `msg_lines` list assembled by `analyze_and_create_message` before
joining.  `timestamp` stands for the formatted `datetime.now` value; the
`weather_summary` argument is accepted (deprecated in the source) and
never read. -/
def analyze_msg_lines (water_level : ℚ) (dam_discharge : Option ℚ) (bank_height : ℚ)
    (hist_2567 hist_2554 : Option ℤ) (weather_summary : Option (List (String × String)))
    (timestamp : String) : List String :=
  let distance_to_bank := bank_height - water_level
  let b := analyze_branch water_level dam_discharge bank_height
  [b.1 ++ " " ++ b.2.1,
   "📍 ต.โพนางดำออก อ.สรรพยา จ.ชัยนาท",
   "🗓️ วันที่: " ++ timestamp ++ " น.",
   "",
   "🌊 ระดับน้ำ + ตลิ่ง",
   "• ระดับน้ำ: " ++ fmt2 water_level ++ " ม.รทก.",
   "• ตลิ่ง: " ++ fmt2 bank_height ++ " ม.รทก. (ต่ำกว่า " ++ fmt2 distance_to_bank ++ " ม.)",
   "",
   "💧 ปริมาณน้ำปล่อยเขื่อนเจ้าพระยา"]
  ++ (match dam_discharge with
      | some dd => [fmtCommaRat dd ++ " ลบ.ม./วินาที"]
      | none => ["ข้อมูลไม่พร้อมใช้งาน"])
  ++ ["", "📊 เปรียบเทียบย้อนหลัง"]
  ++ (match hist_2567 with
      | some h => ["• ปี 2567: " ++ fmtCommaInt h ++ " ลบ.ม./วินาที"]
      | none => [])
  ++ (match hist_2554 with
      | some h => ["• ปี 2554: " ++ fmtCommaInt h ++ " ลบ.ม./วินาที"]
      | none => [])
  ++ ["", "🧾 สรุปสถานการณ์"]
  ++ b.2.2

/-- `analyze_and_create_message`: the joined report text. -/
def analyze_and_create_message (water_level : ℚ) (dam_discharge : Option ℚ)
    (bank_height : ℚ) (hist_2567 hist_2554 : Option ℤ)
    (weather_summary : Option (List (String × String))) (timestamp : String) : String :=
  String.intercalate "\n"
    (analyze_msg_lines water_level dam_discharge bank_height hist_2567 hist_2554
      weather_summary timestamp)

/-! ### Error report and orchestrator (`create_error_message`, `__main__`) -/

/-- `create_error_message`: the degraded error report, with one status line
per sub-system.  `timestamp` stands for the formatted `datetime.now`. -/
def create_error_message (station_status discharge_status timestamp : String) : String :=
  "⚙️❌ เกิดข้อผิดพลาดในการดึงข้อมูล ❌⚙️\n" ++
  "เวลา: " ++ timestamp ++ " น.\n\n" ++
  "• สถานะข้อมูลระดับน้ำสรรพยา: " ++ station_status ++ "\n" ++
  "• สถานะข้อมูลเขื่อนเจ้าพระยา: " ++ discharge_status ++ "\n\n" ++
  "กรุณาตรวจสอบ Log บน GitHub Actions เพื่อดูรายละเอียดข้อผิดพลาดครับ"

/-- The `core_message` chosen by `__main__`: the situation report when all
three of water level, bank level and dam discharge are present, otherwise
the error report with per-sub-system statuses
(`"สำเร็จ" if ... is not None else "ล้มเหลว"`). -/
def main_core_message (water_level bank_level dam_discharge : Option ℚ)
    (hist_2567 hist_2554 : Option ℤ) (timestamp : String) : String :=
  match water_level, bank_level, dam_discharge with
  | some w, some b, some d =>
      analyze_and_create_message w (some d) b hist_2567 hist_2554 none timestamp
  | _, _, _ =>
      create_error_message
        (if water_level.isSome then "สำเร็จ" else "ล้มเหลว")
        (if dam_discharge.isSome then "สำเร็จ" else "ล้มเหลว") timestamp

/-- The `final_message` assembled by `__main__` around the core message;
`weather_alert` truthiness is non-emptiness of the Python string. -/
def main_final_message (core_message weather_alert : String) : String :=
  if weather_alert ≠ "" then
    core_message ++ "\n\n" ++ "🌡️ พยากรณ์อากาศวันนี้:\n" ++ weather_alert ++ "\n\n" ++
      "เทศบาลตำบลโพนางดำออก"
  else
    core_message ++ "\n\nเทศบาลตำบลโพนางดำออก"

/-- Outward side effects of the job. -/
inductive Effect : Type
  | line_broadcast : String → Effect
deriving DecidableEq

/-- The side effects `__main__` performs after data acquisition: it always
calls `send_line_broadcast` on the final message. -/
def main_effects (water_level bank_level dam_discharge : Option ℚ)
    (hist_2567 hist_2554 : Option ℤ) (weather_alert timestamp : String) : List Effect :=
  [Effect.line_broadcast
    (main_final_message
      (main_core_message water_level bank_level dam_discharge hist_2567 hist_2554 timestamp)
      weather_alert)]

/-! ### Python `float(str)` -/

/-- Numeric value of a decimal digit character. -/
def digitVal (c : Char) : ℕ := c.toNat - '0'.toNat

/-- Value of a list of decimal digit characters. -/
def digitsToNat (l : List Char) : ℕ := l.foldl (fun a c => 10 * a + digitVal c) 0

/-- Model of Python `float(str)`: optional surrounding whitespace, optional
sign, decimal digits with optional fractional part and exponent; `none`
models the `ValueError` path.  (`inf`/`nan` spellings and underscore digit
separators are not modelled; no caller feeds them.) -/
def pyFloat (s : String) : Option ℚ :=
  let t := s.trim.data
  let st : ℚ × List Char :=
    match t with
    | '-' :: r => (-1, r)
    | '+' :: r => (1, r)
    | r => (1, r)
  let ip := st.2.takeWhile Char.isDigit
  let r1 := st.2.dropWhile Char.isDigit
  let fpr : List Char × List Char :=
    match r1 with
    | '.' :: r => (r.takeWhile Char.isDigit, r.dropWhile Char.isDigit)
    | r => ([], r)
  if ip = [] ∧ fpr.1 = [] then none
  else
    let base : ℚ := st.1 * ((Int.ofNat (digitsToNat ip) : ℚ) + (Int.ofNat (digitsToNat fpr.1) : ℚ) / 10 ^ fpr.1.length)
    match fpr.2 with
    | [] => some base
    | e :: r3 =>
      if e = 'e' ∨ e = 'E' then
        let er : Bool × List Char :=
          match r3 with
          | '-' :: r => (true, r)
          | '+' :: r => (false, r)
          | r => (false, r)
        let ed := er.2.takeWhile Char.isDigit
        let r5 := er.2.dropWhile Char.isDigit
        if ed = [] ∨ r5 ≠ [] then none
        else some (if er.1 then base / 10 ^ digitsToNat ed else base * 10 ^ digitsToNat ed)
      else none

/-! ### Water level source (`get_sapphaya_data`) -/

/-- A JSON scalar as it may appear in the `waterlevel_msl` field. -/
inductive WLevelVal : Type
  | num : ℚ → WLevelVal
  | str : String → WLevelVal

/-- One station record of the ThaiWater response, with the fields the
source reads plus the bank elevation the response carries but the source
never consults. -/
structure WStation : Type where
  tumbon_name : String
  tele_station_name : String
  waterlevel_msl : Option WLevelVal
  min_bank : Option ℚ

/-- Exact-equality filter on subdivision and station name. -/
def stationMatches (target_tumbon target_station : String) (it : WStation) : Bool :=
  it.tumbon_name == target_tumbon && it.tele_station_name == target_station

/-- `float(wl_str)` with `except ValueError: water_level = None`. -/
def wlToFloat : WLevelVal → Option ℚ
  | .num q => some q
  | .str s => pyFloat s

/-- The hardcoded bank elevation benchmark, 13.87 m MSL. -/
def bank_level_constant : ℚ := Rat.divInt 1387 100

/-- Side effects of the water-level retry loop. -/
inductive SapEffect : Type
  | request : ℕ → SapEffect
  | sleep : ℕ → SapEffect
deriving DecidableEq

/-- `retries` default of `get_sapphaya_data`. -/
def get_sapphaya_retries : ℕ := 3

/-- The constant delay (seconds) slept between attempts. -/
def get_sapphaya_delay_seconds : ℕ := 3

/-- The scan of one attempt's outcome for the first matching record:
`none` both for a raised exception and for a response without a match. -/
def sapphaya_find (target_tumbon target_station : String)
    (outcome : Except Unit (List WStation)) : Option WStation :=
  match outcome with
  | .ok data => data.find? (stationMatches target_tumbon target_station)
  | .error _ => none

/-- Whether an attempt's outcome carries a matching record at all. -/
def attemptHasMatch (target_tumbon target_station : String)
    (outcome : Except Unit (List WStation)) : Bool :=
  match outcome with
  | .ok data => data.any (stationMatches target_tumbon target_station)
  | .error _ => false

/-- The retry loop of `get_sapphaya_data`.  `attempts a` is the outcome of
the `a`-th HTTP call: `.error` models a raised exception (timeout, non-2xx,
malformed JSON), `.ok` the response's `data` array.  Returns the result
pair together with the trace of requests and sleeps. -/
def get_sapphaya_go (attempts : ℕ → Except Unit (List WStation))
    (target_tumbon target_station : String) :
    ℕ → ℕ → (Option ℚ × Option ℚ) × List SapEffect
  | _, 0 => ((none, none), [])
  | a, r + 1 =>
    match sapphaya_find target_tumbon target_station (attempts a) with
    | some it => ((it.waterlevel_msl.bind wlToFloat, some bank_level_constant), [.request a])
    | none =>
      let rest := get_sapphaya_go attempts target_tumbon target_station (a + 1) r
      (rest.1, .request a ::
        (if r > 0 then .sleep get_sapphaya_delay_seconds :: rest.2 else rest.2))

/-- `get_sapphaya_data`: result of the retry loop with the source's
defaults (province 18, ต.โพนางดำออก, station สรรพยา, 3 attempts). -/
def get_sapphaya_data (attempts : ℕ → Except Unit (List WStation))
    (target_tumbon : String := "โพนางดำออก") (target_station : String := "สรรพยา") :
    Option ℚ × Option ℚ :=
  (get_sapphaya_go attempts target_tumbon target_station 0 get_sapphaya_retries).1

/-- Trace of requests and sleeps performed by `get_sapphaya_data`. -/
def get_sapphaya_trace (attempts : ℕ → Except Unit (List WStation))
    (target_tumbon : String := "โพนางดำออก") (target_station : String := "สรรพยา") :
    List SapEffect :=
  (get_sapphaya_go attempts target_tumbon target_station 0 get_sapphaya_retries).2

/-! ### Historical lookup (`get_historical_from_excel`) -/

/-- The fixed Thai month-name table. -/
def THAI_MONTHS : List (String × ℕ) :=
  [("มกราคม", 1), ("กุมภาพันธ์", 2), ("มีนาคม", 3), ("เมษายน", 4),
   ("พฤษภาคม", 5), ("มิถุนายน", 6), ("กรกฎาคม", 7), ("สิงหาคม", 8),
   ("กันยายน", 9), ("ตุลาคม", 10), ("พฤศจิกายน", 11), ("ธันวาคม", 12)]

/-- `df['เดือน'].map(THAI_MONTHS)`: `none` models pandas `NaN` for an
unrecognised month name. -/
def thaiMonthNum (name : String) : Option ℕ :=
  (THAI_MONTHS.find? (fun p => p.1 == name)).map (fun p => p.2)

/-- One row of the yearly spreadsheet after the rename: day of month,
Thai month name, discharge volume. -/
structure HistRow : Type where
  day : ℕ
  month_name : String
  discharge : ℚ

/-- `get_historical_from_excel`: `file = none` models a missing dataset
file, `some (.error ())` a `read_excel`/parsing exception, `some (.ok rows)`
the loaded table.  The matching row's discharge is truncated toward zero
(Python `int()`). -/
def get_historical_from_excel (file : Option (Except Unit (List HistRow)))
    (today_d today_m : ℕ) : Option ℤ :=
  match file with
  | none => none
  | some (.error _) => none
  | some (.ok rows) =>
    match rows.find? (fun r => r.day == today_d && thaiMonthNum r.month_name == some today_m) with
    | some r => some (Int.tdiv r.discharge.num r.discharge.den)
    | none => none

/-! ### Dam discharge source (`fetch_chao_phraya_dam_discharge`) -/

/-- JSON values as produced by `json.loads`. -/
inductive Json : Type
  | null : Json
  | bool : Bool → Json
  | num : ℚ → Json
  | str : String → Json
  | arr : List Json → Json
  | obj : List (String × Json) → Json

/-- Skip JSON insignificant whitespace. -/
def skipWs : List Char → List Char
  | c :: r => if c = ' ' ∨ c = '\t' ∨ c = '\n' ∨ c = '\r' then skipWs r else c :: r
  | [] => []

/-- Hexadecimal digit value. -/
def hexVal (c : Char) : Option ℕ :=
  if c.isDigit then some (c.toNat - '0'.toNat)
  else if 'a' ≤ c ∧ c ≤ 'f' then some (c.toNat - 'a'.toNat + 10)
  else if 'A' ≤ c ∧ c ≤ 'F' then some (c.toNat - 'A'.toNat + 10)
  else none

/-- Parse the remainder of a JSON string literal (opening quote already
consumed), handling the standard escapes.  (`\uXXXX` surrogate pairs are
not recombined; no caller feeds them.) -/
def parseJStr : ℕ → List Char → Option (List Char × List Char)
  | 0, _ => none
  | fuel + 1, l =>
    match l with
    | [] => none
    | '"' :: r => some ([], r)
    | '\\' :: e :: r =>
      let esc : Option (Char × List Char) :=
        match e, r with
        | '"', _ => some ('"', r)
        | '\\', _ => some ('\\', r)
        | '/', _ => some ('/', r)
        | 'b', _ => some ('\x08', r)
        | 'f', _ => some ('\x0C', r)
        | 'n', _ => some ('\n', r)
        | 'r', _ => some ('\r', r)
        | 't', _ => some ('\t', r)
        | 'u', a :: b :: c :: d :: r2 =>
          match hexVal a, hexVal b, hexVal c, hexVal d with
          | some ha, some hb, some hc, some hd =>
            some (Char.ofNat (4096 * ha + 256 * hb + 16 * hc + hd), r2)
          | _, _, _, _ => none
        | _, _ => none
      match esc with
      | some (c, r2) => (parseJStr fuel r2).map (fun p => (c :: p.1, p.2))
      | none => none
    | c :: r =>
      if c.toNat < 32 then none
      else (parseJStr fuel r).map (fun p => (c :: p.1, p.2))

/-- Parse a JSON number (leading-zero strictness is not enforced; callers
only feed well-formed documents or fail earlier). -/
def parseJNum (l : List Char) : Option (ℚ × List Char) :=
  let sr : ℚ × List Char :=
    match l with
    | '-' :: r => (-1, r)
    | r => (1, r)
  let ip := sr.2.takeWhile Char.isDigit
  let r1 := sr.2.dropWhile Char.isDigit
  if ip = [] then none
  else
    let fpr : List Char × List Char :=
      match r1 with
      | '.' :: r => (r.takeWhile Char.isDigit, r.dropWhile Char.isDigit)
      | r => ([], r)
    if r1 ≠ [] ∧ r1.head? = some '.' ∧ fpr.1 = [] then none
    else
      let base : ℚ := sr.1 * ((Int.ofNat (digitsToNat ip) : ℚ) + (Int.ofNat (digitsToNat fpr.1) : ℚ) / 10 ^ fpr.1.length)
      match fpr.2 with
      | 'e' :: r3 | 'E' :: r3 =>
        let er : Bool × List Char :=
          match r3 with
          | '-' :: r => (true, r)
          | '+' :: r => (false, r)
          | r => (false, r)
        let ed := er.2.takeWhile Char.isDigit
        let r5 := er.2.dropWhile Char.isDigit
        if ed = [] then none
        else some ((if er.1 then base / 10 ^ digitsToNat ed else base * 10 ^ digitsToNat ed), r5)
      | r2 => some (base, r2)

mutual

/-- Recursive-descent JSON value, fuel-bounded. -/
def parseJVal : ℕ → List Char → Option (Json × List Char)
  | 0, _ => none
  | fuel + 1, l =>
    match skipWs l with
    | 'n' :: 'u' :: 'l' :: 'l' :: r => some (.null, r)
    | 't' :: 'r' :: 'u' :: 'e' :: r => some (.bool true, r)
    | 'f' :: 'a' :: 'l' :: 's' :: 'e' :: r => some (.bool false, r)
    | '"' :: r => (parseJStr (fuel + 1) r).map (fun p => (.str (String.mk p.1), p.2))
    | '[' :: r =>
      (match skipWs r with
       | ']' :: r2 => some (.arr [], r2)
       | r2 => (parseJItems fuel r2).map (fun p => (.arr p.1, p.2)))
    | '{' :: r =>
      (match skipWs r with
       | '}' :: r2 => some (.obj [], r2)
       | r2 => (parseJMembers fuel r2).map (fun p => (.obj p.1, p.2)))
    | r => parseJNum r |>.map (fun p => (.num p.1, p.2))

/-- Comma-separated array items up to the closing bracket. -/
def parseJItems : ℕ → List Char → Option (List Json × List Char)
  | 0, _ => none
  | fuel + 1, l =>
    match parseJVal fuel l with
    | none => none
    | some (v, r) =>
      match skipWs r with
      | ',' :: r2 => (parseJItems fuel r2).map (fun p => (v :: p.1, p.2))
      | ']' :: r2 => some ([v], r2)
      | _ => none

/-- Comma-separated object members up to the closing brace. -/
def parseJMembers : ℕ → List Char → Option (List (String × Json) × List Char)
  | 0, _ => none
  | fuel + 1, l =>
    match skipWs l with
    | '"' :: r =>
      match parseJStr (fuel + 1) r with
      | none => none
      | some (k, r2) =>
        match skipWs r2 with
        | ':' :: r3 =>
          match parseJVal fuel r3 with
          | none => none
          | some (v, r4) =>
            match skipWs r4 with
            | ',' :: r5 => (parseJMembers fuel r5).map (fun p => ((String.mk k, v) :: p.1, p.2))
            | '}' :: r5 => some ([(String.mk k, v)], r5)
            | _ => none
        | _ => none
    | _ => none

end

/-- `json.loads`: parse a complete document, allowing trailing whitespace
only. -/
def json_loads (s : String) : Option Json :=
  match parseJVal (2 * s.length + 2) s.data with
  | some (j, rest) => if skipWs rest = [] then some j else none
  | none => none

/-- Python-dict lookup for an object built by `json.loads`: a duplicated
key keeps its last value. -/
def jsonObjGet (l : List (String × Json)) (k : String) : Option Json :=
  ((l.filter (fun p => p.1 == k)).getLast?).map (fun p => p.2)

/-- `data[0]` with every failure (`KeyError`/`TypeError`) collapsing to
`none`, as the enclosing `except` does. -/
def pyGetItem0 : Json → Option Json
  | .arr l => l.head?
  | _ => none

/-- `j['key']` with every failure collapsing to `none`. -/
def pyGetItemKey (j : Json) (k : String) : Option Json :=
  match j with
  | .obj l => jsonObjGet l k
  | _ => none

/-- Conversion of the extracted storage value exactly as the source does:
numbers via `float(x)` (Python `bool` being an `int`), strings via
`float(str(x).replace(',', ''))`, `None` falling through to the final
`return None`, anything else raising into the `except` (→ `none`). -/
def storageToFloat : Json → Option ℚ
  | .num q => some q
  | .bool b => some (if b then 1 else 0)
  | .str s => pyFloat (String.mk (s.data.filter (fun c => c ≠ ',')))
  | .null => none
  | .arr _ => none
  | .obj _ => none

/-- Start indices of every `];` occurrence in a list. -/
def closeSemiPositions : List Char → ℕ → List ℕ
  | ']' :: ';' :: rest, i => i :: closeSemiPositions (';' :: rest) (i + 1)
  | _ :: rest, i => closeSemiPositions rest (i + 1)
  | [], _ => []

/-- `re.search(r'var json_data = (\[.*\]);', text)`: leftmost match
position, greedy `.*` (no newline), returning capture group 1. -/
def reSearchJsonData : List Char → Option (List Char)
  | [] => none
  | c :: rest =>
    if List.isPrefixOf ("var json_data = [".data) (c :: rest) then
      let seg := ((c :: rest).drop 16).takeWhile (fun ch => ch ≠ '\n')
      match (closeSemiPositions seg 0).getLast? with
      | some i => some (seg.take (i + 1))
      | none => reSearchJsonData rest
    else reSearchJsonData rest

/-- `fetch_chao_phraya_dam_discharge`: the source performs exactly one
`requests.get`, so only `responses 0` is consulted; `none` there models a
raised network error (absorbed by the `except`). -/
def fetch_chao_phraya_dam_discharge (responses : ℕ → Option String) : Option ℚ :=
  match responses 0 with
  | none => none
  | some body =>
    match reSearchJsonData body.data with
    | none => none
    | some g =>
      match json_loads (String.mk g) with
      | none => none
      | some data =>
        match ((pyGetItem0 data).bind (fun j => pyGetItemKey j "itc_water")).bind
            (fun j => (pyGetItemKey j "C13").bind (fun j2 => pyGetItemKey j2 "storage")) with
        | none => none
        | some ws => storageToFloat ws

/-! ### Forecast weather source (`get_openweather_alert`) -/

/-- Python `needle in hay` on strings. -/
def strContainsAux (needle : List Char) : List Char → Bool
  | [] => needle.isEmpty
  | c :: rest => List.isPrefixOf needle (c :: rest) || strContainsAux needle rest

/-- Python `needle in hay` on strings. -/
def pyInStr (needle hay : String) : Bool := strContainsAux needle.data hay.data

/-- One 3-hourly forecast entry, with the fields the source reads plus the
humidity the response carries but the source never consults. -/
structure OWEntry : Type where
  dt_txt : String
  temp : Option ℚ
  weather : List (Option ℕ)
  humidity : ℚ

/-- Weather codes treated as rain/thunderstorm. -/
def rainCodes : List ℕ := [95, 96, 99, 500, 501, 502, 503, 504]

/-- Python truthiness of the `rain_detected_time` variable. -/
def owTruthy : Option String → Bool
  | none => false
  | some s => s ≠ ""

/-- The scan over forecast entries: track the maximum temperature and the
first rain time (`ts[11:16]` of the entry, when the timestamp is long
enough) among entries of the current local day. -/
def owLoop (today_str : String) : List OWEntry → ℚ → Option String → ℚ × Option String
  | [], max_temp, rain_t => (max_temp, rain_t)
  | e :: rest, max_temp, rain_t =>
    if pyInStr today_str e.dt_txt = false then owLoop today_str rest max_temp rain_t
    else
      let mt : ℚ :=
        match e.temp with
        | some t => if t > max_temp then t else max_temp
        | none => max_temp
      let rt : Option String :=
        match e.weather.head? with
        | some (some wid) =>
          if rainCodes.contains wid && !owTruthy rain_t then
            (if e.dt_txt.length ≥ 16
             then some (String.mk ((e.dt_txt.data.drop 11).take 5))
             else none)
          else rain_t
        | some none => rain_t
        | none => rain_t
      owLoop today_str rest mt rt

/-- The hot-weather advisory, embedding `round(max_temp, 1)`. -/
def owHotMessage (max_temp : ℚ) : String :=
  "โพนางดำออกวันนี้... แดดแรงเหมือนโกรธใครมา! 🥵\n\n" ++
  "อุณหภูมิสูงสุดพุ่งไปถึง " ++ fmtRound1 max_temp ++ "°C เลยนะ พกร่มพกน้ำให้พร้อม! 🍳"

/-- The rain advisory, embedding the first detected rain time. -/
def owRainMessage (t : String) : String :=
  "ชาวโพนางดำออก! ⛈️ เมฆกำลังตั้งตี้สาดน้ำ!\n\n" ++
  "มีแววฝนจะเทลงมาช่วงประมาณ " ++ t ++ " น. พกร่มไปด้วยนะ เดี๋ยวเปียก! 😎"

/-- The no-event default message. -/
def owDefaultMessage : String := "📍 วันนี้ที่โพนางดำออก: อากาศปกติ ☀️ ไม่มีเหตุพิเศษครับ"

/-- `get_openweather_alert`: `.error e` models a raised exception caught by
the wrapper, `.ok entries` the forecast `list`; `today_str` is the local
date string used for filtering. -/
def get_openweather_alert (resp : Except String (List OWEntry)) (today_str : String) : String :=
  match resp with
  | .error e => "❌ เกิดข้อผิดพลาดในการดึงข้อมูลอากาศ: " ++ e
  | .ok entries =>
    let mr := owLoop today_str entries (-999) none
    let messages : List String :=
      (if mr.1 ≥ 35 then [owHotMessage mr.1] else []) ++
      (if owTruthy mr.2 then [owRainMessage (mr.2.getD "")] else [])
    let messages := if messages = [] then [owDefaultMessage] else messages
    String.intercalate "\n\n" messages

end Chainat

namespace Chainat

/-- C1: for non-null water level, bank height and dam discharge,
`analyze_and_create_message` classifies in the spec's fixed order (first
match wins): discharge > 2400 or distance < 1.0 → CRITICAL; else
discharge > 1800 or distance < 2.0 → WATCH; else NORMAL — regardless of
the values outside those thresholds.  The message's head line carries the
classified tier's icon and header. -/
theorem claim_tier_order (wl bh dd : ℚ) (h67 h54 : Option ℤ)
    (ws : Option (List (String × String))) (ts : String) :
    tierOf wl (some dd) bh = tierSpecOrder wl dd bh ∧
    (analyze_msg_lines wl (some dd) bh h67 h54 ws ts).head? =
      some (tierIcon (tierOf wl (some dd) bh) ++ " " ++ tierHeader (tierOf wl (some dd) bh)) := by
  constructor
  · simp only [tierOf, tierSpecOrder, critCond, watchCond, Bool.or_eq_true, decide_eq_true_eq]
  · simp only [analyze_msg_lines, analyze_branch, tierOf]
    split_ifs <;> rfl

/-- C9: message composition is deterministic and ignores the
`weather_summary` argument entirely. -/
theorem claim_deterministic (wl : ℚ) (dd : Option ℚ) (bh : ℚ) (h67 h54 : Option ℤ)
    (ws1 ws2 : Option (List (String × String))) (ts : String) :
    analyze_and_create_message wl dd bh h67 h54 ws1 ts =
      analyze_and_create_message wl dd bh h67 h54 ws2 ts :=
  rfl

/-- C4: with `dam_discharge = None` the CRITICAL and WATCH branches are
unreachable: for every water level and bank height the report is NORMAL
(icon 🟩, header "สถานะปกติ", NORMAL advisory lines) and the dam section
shows the substitution text. -/
theorem claim_none_discharge_normal (wl bh : ℚ) (h67 h54 : Option ℤ)
    (ws : Option (List (String × String))) (ts : String) :
    tierOf wl none bh = .NORMAL ∧
    (analyze_msg_lines wl none bh h67 h54 ws ts).head? = some "🟩 สถานะปกติ" ∧
    "ข้อมูลไม่พร้อมใช้งาน" ∈ analyze_msg_lines wl none bh h67 h54 ws ts ∧
    (analyze_branch wl none bh).2.2 =
      ["ระดับน้ำยังห่างตลิ่ง " ++ fmt2 (bh - wl) ++ " ม. ถือว่า \"ปลอดภัย\" ✅",
       "ประชาชนใช้ชีวิตได้ตามปกติครับ"] := by
  refine ⟨rfl, rfl, ?_, rfl⟩
  simp [analyze_msg_lines]

/-- C7: every NORMAL input yields the advisory embedding
`bank_height - water_level` rendered to 2 decimal places. -/
theorem claim_normal_advisory (wl bh dd : ℚ) (h : tierOf wl (some dd) bh = .NORMAL) :
    (analyze_branch wl (some dd) bh).2.2 =
      ["ระดับน้ำยังห่างตลิ่ง " ++ fmt2 (bh - wl) ++ " ม. ถือว่า \"ปลอดภัย\" ✅",
       "ประชาชนใช้ชีวิตได้ตามปกติครับ"] := by
  simp only [tierOf] at h
  simp only [analyze_branch]
  split_ifs at h ⊢ with h1 h2
  all_goals simp_all

/-- C7 witness: the spec's example `water_level=11.50, bank=13.87,
discharge=1200` is NORMAL and the advisory states the distance "2.37". -/
theorem claim_normal_advisory_witness :
    tierOf (Rat.divInt 115 10) (some 1200) (Rat.divInt 1387 100) = .NORMAL ∧
    (analyze_branch (Rat.divInt 115 10) (some 1200) (Rat.divInt 1387 100)).2.2 =
      ["ระดับน้ำยังห่างตลิ่ง 2.37 ม. ถือว่า \"ปลอดภัย\" ✅",
       "ประชาชนใช้ชีวิตได้ตามปกติครับ"] := by
  have h : tierOf (Rat.divInt 115 10) (some 1200) (Rat.divInt 1387 100) = .NORMAL := by
    with_unfolding_all decide
  refine ⟨h, ?_⟩
  rw [claim_normal_advisory _ _ _ h]
  with_unfolding_all rfl

/-! ### Helper lemmas about rendered digits (for the historical-line claim) -/

theorem digitChar_ne_bullet (m : ℕ) : Nat.digitChar m ≠ '•' := by
  rcases Nat.lt_or_ge m 16 with h | h
  · interval_cases m <;> decide
  · have he : Nat.digitChar m = '*' := by
      unfold Nat.digitChar
      repeat rw [if_neg (by omega)]
    rw [he]
    decide

theorem toDigitsCore_mem (b fuel : ℕ) : ∀ (n : ℕ) (ds : List Char) (c : Char),
    c ∈ Nat.toDigitsCore b fuel n ds → (∃ m, c = Nat.digitChar m) ∨ c ∈ ds := by
  induction fuel with
  | zero =>
    intro n ds c hc
    simp only [Nat.toDigitsCore] at hc
    exact .inr hc
  | succ fuel ih =>
    intro n ds c hc
    simp only [Nat.toDigitsCore] at hc
    by_cases h : n / b = 0
    · rw [if_pos h] at hc
      rcases List.mem_cons.mp hc with h1 | h1
      · exact .inl ⟨n % b, h1⟩
      · exact .inr h1
    · rw [if_neg h] at hc
      rcases ih _ _ _ hc with h1 | h1
      · exact .inl h1
      · rcases List.mem_cons.mp h1 with h2 | h2
        · exact .inl ⟨n % b, h2⟩
        · exact .inr h2

theorem repr_char_digit (n : ℕ) (c : Char) (hc : c ∈ (Nat.repr n).data) :
    ∃ m, c = Nat.digitChar m := by
  have he : (Nat.repr n).data = Nat.toDigitsCore 10 (n + 1) n [] := rfl
  rw [he] at hc
  rcases toDigitsCore_mem 10 (n + 1) n [] c hc with h | h
  · exact h
  · simp at h

theorem toDigitsCore_ne_nil (b : ℕ) : ∀ (fuel n : ℕ) (ds : List Char),
    ds ≠ [] → Nat.toDigitsCore b fuel n ds ≠ [] := by
  intro fuel
  induction fuel with
  | zero => intro n ds h; simpa [Nat.toDigitsCore] using h
  | succ fuel ih =>
    intro n ds h
    simp only [Nat.toDigitsCore]
    split_ifs
    · simp
    · exact ih _ _ (by simp)

theorem repr_ne_nil (n : ℕ) : (Nat.repr n).data ≠ [] := by
  have he : (Nat.repr n).data = Nat.toDigitsCore 10 (n + 1) n [] := rfl
  rw [he]
  cases hn : n + 1 with
  | zero => exact absurd hn (by simp)
  | succ m =>
    simp only [Nat.toDigitsCore]
    split_ifs
    · simp
    · exact toDigitsCore_ne_nil 10 m _ _ (by simp)

theorem commaRevAux_mem : ∀ (l : List Char) (k : ℕ) (c : Char),
    c ∈ commaRevAux l k → c ∈ l ∨ c = ',' := by
  intro l
  induction l with
  | nil => intro k c hc; simp [commaRevAux] at hc
  | cons d cs ih =>
    intro k c hc
    cases cs with
    | nil =>
      simp only [commaRevAux, List.mem_singleton] at hc
      exact .inl (by simp [hc])
    | cons e es =>
      simp only [commaRevAux] at hc
      by_cases hk : k = 2
      · rw [if_pos hk] at hc
        rcases List.mem_cons.mp hc with h1 | h1
        · exact .inl (by simp [h1])
        · rcases List.mem_cons.mp h1 with h2 | h2
          · exact .inr h2
          · rcases ih 0 c h2 with h3 | h3
            · exact .inl (List.mem_cons_of_mem _ h3)
            · exact .inr h3
      · rw [if_neg hk] at hc
        rcases List.mem_cons.mp hc with h1 | h1
        · exact .inl (by simp [h1])
        · rcases ih (k + 1) c h1 with h3 | h3
          · exact .inl (List.mem_cons_of_mem _ h3)
          · exact .inr h3

theorem commaRevAux_ne_nil : ∀ (l : List Char) (k : ℕ), l ≠ [] → commaRevAux l k ≠ [] := by
  intro l k h
  match l with
  | [c] => simp [commaRevAux]
  | c :: c2 :: cs =>
    simp only [commaRevAux]
    split_ifs <;> simp

theorem commaNat_char (n : ℕ) (c : Char) (hc : c ∈ (commaNat n).data) :
    (∃ m, c = Nat.digitChar m) ∨ c = ',' := by
  simp only [commaNat] at hc
  rw [List.mem_reverse] at hc
  rcases commaRevAux_mem _ _ _ hc with h | h
  · rw [List.mem_reverse] at h
    exact .inl (repr_char_digit n c h)
  · exact .inr h

theorem commaNat_ne_bullet (n : ℕ) (c : Char) (hc : c ∈ (commaNat n).data) : c ≠ '•' := by
  rcases commaNat_char n c hc with ⟨m, rfl⟩ | rfl
  · exact digitChar_ne_bullet m
  · decide

theorem commaNat_ne_nil (n : ℕ) : (commaNat n).data ≠ [] := by
  simp only [commaNat]
  intro hcon
  rw [List.reverse_eq_nil_iff] at hcon
  exact commaRevAux_ne_nil _ 0
    (fun h2 => repr_ne_nil n (by rwa [List.reverse_eq_nil_iff] at h2)) hcon

theorem head?_append_eq (A B : List Char) (c : Char) (h : A.head? = some c) :
    (A ++ B).head? = some c := by
  cases A <;> simp_all

theorem fmtCommaRat_head (q : ℚ) :
    ∃ c, ((fmtCommaRat q).data).head? = some c ∧ c ≠ '•' := by
  simp only [fmtCommaRat, String.data_append]
  by_cases h : q < 0
  · rw [if_pos h]
    exact ⟨'-', head?_append_eq _ _ _ (head?_append_eq _ _ _ (head?_append_eq _ _ _ rfl)), by decide⟩
  · rw [if_neg h]
    rcases hd : (commaNat (⌊|q|⌋).toNat).data with _ | ⟨c, r⟩
    · exact absurd hd (commaNat_ne_nil _)
    · refine ⟨c, ?_, commaNat_ne_bullet _ c (by rw [hd]; exact List.mem_cons_self _ _)⟩
      apply head?_append_eq
      apply head?_append_eq
      simp [hd]

theorem isPrefixOf_append_of_length_le : ∀ (p a b : List Char), p.length ≤ a.length →
    List.isPrefixOf p (a ++ b) = List.isPrefixOf p a := by
  intro p
  induction p with
  | nil => intro a b h; simp
  | cons c p ih =>
    intro a b h
    cases a with
    | nil => simp at h
    | cons d a' =>
      simp only [List.cons_append, List.isPrefixOf_cons₂]
      rw [ih a' b (by simpa using h)]

theorem prefix_false_append_left (p : List Char) (a x : String)
    (h : List.isPrefixOf p a.data = false) (hlen : p.length ≤ a.data.length) :
    List.isPrefixOf p ((a ++ x).data) = false := by
  rw [String.data_append, isPrefixOf_append_of_length_le p a.data x.data hlen]
  exact h

theorem prefix_false_of_head (p : List Char) (l : List Char) (c : Char)
    (h : l.head? = some c) (hc : c ≠ '•') : List.isPrefixOf ('•' :: p) l = false := by
  cases l with
  | nil => simp at h
  | cons d r =>
    simp only [List.head?_cons, Option.some.injEq] at h
    subst h
    have hb : ('•' == d) = false := by
      simp only [beq_eq_false_iff_ne, ne_eq]
      exact fun h2 => hc h2.symm
    simp [List.isPrefixOf_cons₂, hb]

theorem prefix_false_fmtCommaRat (q : ℚ) (s : String) (p : List Char) :
    List.isPrefixOf ('•' :: p) ((fmtCommaRat q ++ s).data) = false := by
  obtain ⟨c, hc, hne⟩ := fmtCommaRat_head q
  exact prefix_false_of_head _ _ c
    (by rw [String.data_append]; exact head?_append_eq _ _ _ hc) hne

theorem prefix_false_of_incomparable : ∀ (p a : List Char),
    List.isPrefixOf p a = false → List.isPrefixOf a p = false →
    ∀ b, List.isPrefixOf p (a ++ b) = false := by
  intro p
  induction p with
  | nil => intro a h1 _ _; simp at h1
  | cons c p ih =>
    intro a h1 h2 b
    cases a with
    | nil => simp at h2
    | cons d a =>
      simp only [List.isPrefixOf_cons₂, Bool.and_eq_false_imp] at h1 h2
      simp only [List.cons_append, List.isPrefixOf_cons₂]
      by_cases hcd : (c == d) = true
      · have hdc : (d == c) = true := by
          simp only [beq_iff_eq] at hcd ⊢
          exact hcd.symm
        rw [hcd, ih a (h1 hcd) (h2 hdc) b]
        rfl
      · simp only [Bool.not_eq_true] at hcd
        rw [hcd]
        rfl

theorem head_line_prefix_false (wl : ℚ) (dd : Option ℚ) (bh : ℚ) :
    List.isPrefixOf ("• ปี 2567: ".data)
      (((analyze_branch wl dd bh).1 ++ " " ++ (analyze_branch wl dd bh).2.1).data) = false := by
  simp only [analyze_branch]
  split_ifs
  · show List.isPrefixOf ("• ปี 2567: ".data)
      (("🟥" ++ " " ++ "‼️ ประกาศเตือนภัยระดับสูงสุด ‼️" : String).data) = false
    decide
  · show List.isPrefixOf ("• ปี 2567: ".data)
      (("🟨" ++ " " ++ "‼️ ประกาศเฝ้าระวัง ‼️" : String).data) = false
    decide
  · show List.isPrefixOf ("• ปี 2567: ".data)
      (("🟩" ++ " " ++ "สถานะปกติ" : String).data) = false
    decide

theorem summary_lines_prefix_false (wl : ℚ) (dd : Option ℚ) (bh : ℚ) (l : String)
    (hl : l ∈ (analyze_branch wl dd bh).2.2) :
    List.isPrefixOf ("• ปี 2567: ".data) l.data = false := by
  simp only [analyze_branch] at hl
  split_ifs at hl
  all_goals simp only [List.mem_cons, List.not_mem_nil, or_false] at hl
  · rcases hl with rfl|rfl|rfl|rfl <;> decide
  · rcases hl with rfl|rfl|rfl <;> decide
  · rcases hl with rfl|rfl
    · simp only [String.data_append, List.append_assoc]
      exact prefix_false_of_incomparable _ _ (by decide) (by decide) _
    · decide

/-- C6: with `hist_2567 = None` and `hist_2554 = 12500`, the composed
report contains the 2554 line (rendered "12,500") and no line of any kind
carrying the 2567 prefix — the year's line is omitted entirely, with no
placeholder. -/
theorem claim_hist_line_omitted (wl : ℚ) (dd : Option ℚ) (bh : ℚ)
    (ws : Option (List (String × String))) (ts : String) :
    (("• ปี 2554: " ++ fmtCommaInt 12500 ++ " ลบ.ม./วินาที") ∈
        analyze_msg_lines wl dd bh none (some 12500) ws ts) ∧
    ("• ปี 2554: " ++ fmtCommaInt 12500 ++ " ลบ.ม./วินาที" = "• ปี 2554: 12,500 ลบ.ม./วินาที") ∧
    ∀ l ∈ analyze_msg_lines wl dd bh none (some 12500) ws ts,
      List.isPrefixOf ("• ปี 2567: ".data) l.data = false := by
  refine ⟨by simp [analyze_msg_lines], by decide, ?_⟩
  intro l hl
  cases dd with
  | none =>
    simp only [analyze_msg_lines, List.mem_append, List.mem_cons, List.mem_singleton,
      List.not_mem_nil, or_false, false_or, or_assoc] at hl
    rcases hl with rfl|rfl|rfl|rfl|rfl|rfl|rfl|rfl|rfl|rfl|rfl|rfl|rfl|rfl|rfl|hl
    · exact head_line_prefix_false wl none bh
    · decide
    · simp only [String.data_append, List.append_assoc]
      exact prefix_false_of_incomparable _ _ (by decide) (by decide) _
    · decide
    · decide
    · simp only [String.data_append, List.append_assoc]
      exact prefix_false_of_incomparable _ _ (by decide) (by decide) _
    · simp only [String.data_append, List.append_assoc]
      exact prefix_false_of_incomparable _ _ (by decide) (by decide) _
    · decide
    · decide
    · decide
    · decide
    · decide
    · decide
    · decide
    · decide
    · exact summary_lines_prefix_false wl none bh l hl
  | some x =>
    simp only [analyze_msg_lines, List.mem_append, List.mem_cons, List.mem_singleton,
      List.not_mem_nil, or_false, false_or, or_assoc] at hl
    rcases hl with rfl|rfl|rfl|rfl|rfl|rfl|rfl|rfl|rfl|rfl|rfl|rfl|rfl|rfl|rfl|hl
    · exact head_line_prefix_false wl (some x) bh
    · decide
    · simp only [String.data_append, List.append_assoc]
      exact prefix_false_of_incomparable _ _ (by decide) (by decide) _
    · decide
    · decide
    · simp only [String.data_append, List.append_assoc]
      exact prefix_false_of_incomparable _ _ (by decide) (by decide) _
    · simp only [String.data_append, List.append_assoc]
      exact prefix_false_of_incomparable _ _ (by decide) (by decide) _
    · decide
    · decide
    · rw [show ("• ปี 2567: " : String).data = '•' :: (" ปี 2567: " : String).data from rfl]
      exact prefix_false_fmtCommaRat x _ _
    · decide
    · decide
    · decide
    · decide
    · decide
    · exact summary_lines_prefix_false wl (some x) bh l hl

/-- C6 witness: at a concrete NORMAL input the substituted dam line is in
the report and carries no 2567 prefix. -/
theorem claim_hist_line_omitted_witness :
    ("ข้อมูลไม่พร้อมใช้งาน" ∈ analyze_msg_lines (Rat.divInt 121 10) none (Rat.divInt 1387 100)
        none (some 12500) none "01/10/2026 07:00") ∧
    List.isPrefixOf ("• ปี 2567: ".data) ("ข้อมูลไม่พร้อมใช้งาน" : String).data = false := by
  have hmem : ("ข้อมูลไม่พร้อมใช้งาน" : String) ∈ analyze_msg_lines (Rat.divInt 121 10) none
      (Rat.divInt 1387 100) none (some 12500) none "01/10/2026 07:00" := by
    simp [analyze_msg_lines]
  exact ⟨hmem,
    (claim_hist_line_omitted (Rat.divInt 121 10) none (Rat.divInt 1387 100) none
      "01/10/2026 07:00").2.2 _ hmem⟩

theorem intercalate_go_data (s : String) : ∀ (as : List String) (acc : String),
    ∃ t, (String.intercalate.go acc s as).data = acc.data ++ t := by
  intro as
  induction as with
  | nil => intro acc; exact ⟨[], by simp [String.intercalate.go]⟩
  | cons a as ih =>
    intro acc
    obtain ⟨t, ht⟩ := ih (acc ++ s ++ a)
    refine ⟨s.data ++ a.data ++ t, ?_⟩
    rw [show String.intercalate.go acc s (a :: as) =
          String.intercalate.go (acc ++ s ++ a) s as from rfl, ht]
    simp [String.data_append, List.append_assoc]

theorem analyze_message_data (wl : ℚ) (dd : Option ℚ) (bh : ℚ) (h67 h54 : Option ℤ)
    (ws : Option (List (String × String))) (ts : String) :
    ∃ t, (analyze_and_create_message wl dd bh h67 h54 ws ts).data =
      ((analyze_branch wl dd bh).1 ++ " " ++ (analyze_branch wl dd bh).2.1).data ++ t :=
  intercalate_go_data "\n" _ _

theorem error_message_head (s1 s2 ts : String) :
    ((create_error_message s1 s2 ts).data).head? = some '⚙' :=
  rfl

theorem error_ne_situation (s1 s2 ts : String) (wl : ℚ) (dd : Option ℚ) (bh : ℚ)
    (h67 h54 : Option ℤ) (ws : Option (List (String × String))) (ts2 : String) :
    create_error_message s1 s2 ts ≠ analyze_and_create_message wl dd bh h67 h54 ws ts2 := by
  intro heq
  obtain ⟨t, ht⟩ := analyze_message_data wl dd bh h67 h54 ws ts2
  have hdat := congrArg String.data heq
  rw [ht] at hdat
  have h1 := error_message_head s1 s2 ts
  rw [hdat] at h1
  revert h1
  simp only [analyze_branch]
  split_ifs <;> intro h1 <;> simp at h1

/-- C2: when the water-level or the dam-discharge acquisition yields an
absent value, the core message is the error report (never the situation
report), the error report names each sub-system's status individually —
"ล้มเหลว" for the failed one, "สำเร็จ" for the successful one — and the
notifier is still invoked, with the error report leading the delivered
message. -/
theorem claim_error_report (wl bank dd : Option ℚ) (h67 h54 : Option ℤ) (wa ts : String)
    (h : wl = none ∨ dd = none) :
    main_core_message wl bank dd h67 h54 ts =
      create_error_message (if wl.isSome then "สำเร็จ" else "ล้มเหลว")
        (if dd.isSome then "สำเร็จ" else "ล้มเหลว") ts ∧
    ((wl = none → (if wl.isSome then "สำเร็จ" else "ล้มเหลว") = "ล้มเหลว") ∧
     (wl ≠ none → (if wl.isSome then "สำเร็จ" else "ล้มเหลว") = "สำเร็จ") ∧
     (dd = none → (if dd.isSome then "สำเร็จ" else "ล้มเหลว") = "ล้มเหลว") ∧
     (dd ≠ none → (if dd.isSome then "สำเร็จ" else "ล้มเหลว") = "สำเร็จ")) ∧
    (∃ p q, main_core_message wl bank dd h67 h54 ts =
        p ++ ("• สถานะข้อมูลระดับน้ำสรรพยา: " ++ (if wl.isSome then "สำเร็จ" else "ล้มเหลว") ++
              "\n" ++ "• สถานะข้อมูลเขื่อนเจ้าพระยา: " ++
              (if dd.isSome then "สำเร็จ" else "ล้มเหลว")) ++ q) ∧
    (∀ (w : ℚ) (d : Option ℚ) (b : ℚ) (g67 g54 : Option ℤ)
        (ws2 : Option (List (String × String))) (ts2 : String),
        main_core_message wl bank dd h67 h54 ts ≠
          analyze_and_create_message w d b g67 g54 ws2 ts2) ∧
    (∃ r, main_final_message (main_core_message wl bank dd h67 h54 ts) wa =
        main_core_message wl bank dd h67 h54 ts ++ r) ∧
    Effect.line_broadcast (main_final_message (main_core_message wl bank dd h67 h54 ts) wa) ∈
      main_effects wl bank dd h67 h54 wa ts := by
  have hcore : main_core_message wl bank dd h67 h54 ts =
      create_error_message (if wl.isSome then "สำเร็จ" else "ล้มเหลว")
        (if dd.isSome then "สำเร็จ" else "ล้มเหลว") ts := by
    rcases h with rfl | rfl
    · rfl
    · cases wl <;> cases bank <;> rfl
  refine ⟨hcore, ⟨?_, ?_, ?_, ?_⟩, ?_, ?_, ?_, ?_⟩
  · intro hw; rw [hw]; rfl
  · intro hw; cases wl with
    | none => exact absurd rfl hw
    | some _ => rfl
  · intro hd; rw [hd]; rfl
  · intro hd; cases dd with
    | none => exact absurd rfl hd
    | some _ => rfl
  · refine ⟨"⚙️❌ เกิดข้อผิดพลาดในการดึงข้อมูล ❌⚙️\n" ++ "เวลา: " ++ ts ++ " น.\n\n",
      "\n\n" ++ "กรุณาตรวจสอบ Log บน GitHub Actions เพื่อดูรายละเอียดข้อผิดพลาดครับ", ?_⟩
    rw [hcore]
    apply String.ext
    simp only [create_error_message, String.data_append, List.append_assoc]
  · intro w d b g67 g54 ws2 ts2
    rw [hcore]
    exact error_ne_situation _ _ _ w d b g67 g54 ws2 ts2
  · unfold main_final_message
    split_ifs
    · exact ⟨"\n\n" ++ "🌡️ พยากรณ์อากาศวันนี้:\n" ++ wa ++ "\n\n" ++ "เทศบาลตำบลโพนางดำออก",
        by apply String.ext; simp only [String.data_append, List.append_assoc]⟩
    · exact ⟨"\n\nเทศบาลตำบลโพนางดำออก", rfl⟩
  · simp [main_effects]

/-- C2 witness: missing dam discharge but present water level yields the
error report with "ล้มเหลว" on the dam line and "สำเร็จ" on the
water-level line, and the notifier still fires. -/
theorem claim_error_report_witness :
    ((some (Rat.divInt 121 10) : Option ℚ) = none ∨ (none : Option ℚ) = none) ∧
    main_core_message (some (Rat.divInt 121 10)) (some (Rat.divInt 1387 100)) none
        none none "01/10/2026 07:00" =
      create_error_message "สำเร็จ" "ล้มเหลว" "01/10/2026 07:00" := by
  refine ⟨Or.inr rfl, ?_⟩
  have h := claim_error_report (some (Rat.divInt 121 10)) (some (Rat.divInt 1387 100)) none
    none none "" "01/10/2026 07:00" (Or.inr rfl)
  exact h.1

theorem sapphaya_go_step (attempts : ℕ → Except Unit (List WStation)) (tt ts : String)
    (a r : ℕ) (hf : sapphaya_find tt ts (attempts a) = none) :
    get_sapphaya_go attempts tt ts a (r + 1) =
      ((get_sapphaya_go attempts tt ts (a + 1) r).1,
       .request a ::
         (if r > 0 then .sleep get_sapphaya_delay_seconds ::
            (get_sapphaya_go attempts tt ts (a + 1) r).2
          else (get_sapphaya_go attempts tt ts (a + 1) r).2)) := by
  simp only [get_sapphaya_go, hf]

theorem sapphaya_find_ne_none_of_hasMatch (tt ts : String)
    (e : Except Unit (List WStation)) (h : attemptHasMatch tt ts e = true) :
    sapphaya_find tt ts e ≠ none := by
  cases e with
  | error _ => simp [attemptHasMatch] at h
  | ok data =>
    simp only [attemptHasMatch] at h
    simp only [sapphaya_find, ne_eq, List.find?_eq_none]
    intro hall
    rcases List.any_eq_true.mp h with ⟨x, hx, hpx⟩
    exact hall x hx hpx

/-- C5: no exception propagates out of an acquisition function: whenever no
attempt finds a matching record, `get_sapphaya_data` returns `(None, None)`
after exactly its 3 attempts with the fixed 3-second delay between them,
and `get_historical_from_excel` returns an absent value when the dataset
file is missing, reading it raises, or no row matches today's date. -/
theorem claim_no_raise_acquisition :
    (∀ (attempts : ℕ → Except Unit (List WStation)),
       (∀ i, i < get_sapphaya_retries →
          attemptHasMatch "โพนางดำออก" "สรรพยา" (attempts i) = false) →
       get_sapphaya_data attempts = (none, none) ∧
       get_sapphaya_trace attempts =
         [.request 0, .sleep get_sapphaya_delay_seconds, .request 1,
          .sleep get_sapphaya_delay_seconds, .request 2]) ∧
    (∀ d m, get_historical_from_excel none d m = none) ∧
    (∀ d m, get_historical_from_excel (some (.error ())) d m = none) ∧
    (∀ (rows : List HistRow) (d m : ℕ),
       (∀ r ∈ rows, (r.day == d && thaiMonthNum r.month_name == some m) = false) →
       get_historical_from_excel (some (.ok rows)) d m = none) := by
  refine ⟨?_, fun d m => rfl, fun d m => rfl, ?_⟩
  · intro attempts hno
    have hfind : ∀ i, i < get_sapphaya_retries →
        sapphaya_find "โพนางดำออก" "สรรพยา" (attempts i) = none := by
      intro i hi
      rcases he : sapphaya_find "โพนางดำออก" "สรรพยา" (attempts i) with _ | it
      · rfl
      · exfalso
        have hm := hno i hi
        cases hatt : attempts i with
        | error _ => rw [hatt] at he; simp [sapphaya_find] at he
        | ok data =>
          rw [hatt] at he hm
          simp only [sapphaya_find] at he
          simp only [attemptHasMatch, List.any_eq_false] at hm
          exact hm it (List.mem_of_find?_eq_some he) (List.find?_some he)
    have h0 := hfind 0 (by decide)
    have h1 := hfind 1 (by decide)
    have h2 := hfind 2 (by decide)
    have e3 : get_sapphaya_go attempts "โพนางดำออก" "สรรพยา" 0 get_sapphaya_retries =
        ((none, none),
         [.request 0, .sleep get_sapphaya_delay_seconds, .request 1,
          .sleep get_sapphaya_delay_seconds, .request 2]) := by
      rw [show get_sapphaya_retries = 2 + 1 from rfl, sapphaya_go_step attempts _ _ 0 2 h0,
        show (2 : ℕ) = 1 + 1 from rfl, sapphaya_go_step attempts _ _ 1 1 h1,
        show (1 : ℕ) = 0 + 1 from rfl, sapphaya_go_step attempts _ _ 2 0 h2]
      simp [get_sapphaya_go]
    exact ⟨by simp [get_sapphaya_data, e3], by simp [get_sapphaya_trace, e3]⟩
  · intro rows d m hall
    simp only [get_historical_from_excel]
    rw [List.find?_eq_none.mpr]
    intro x hx
    simp [hall x hx]

/-- C5 witness: three failing attempts yield `(None, None)` with the
request/sleep/request/sleep/request trace, and the three historical
failure modes yield `none`. -/
theorem claim_no_raise_acquisition_witness :
    (get_sapphaya_data (fun _ => .error ()) = (none, none) ∧
     get_sapphaya_trace (fun _ => .error ()) =
       [.request 0, .sleep 3, .request 1, .sleep 3, .request 2]) ∧
    get_historical_from_excel none 12 10 = none ∧
    get_historical_from_excel (some (.error ())) 12 10 = none ∧
    get_historical_from_excel (some (.ok [⟨11, "ตุลาคม", 100⟩])) 12 10 = none := by
  refine ⟨claim_no_raise_acquisition.1 (fun _ => .error ()) (fun i _ => rfl),
    claim_no_raise_acquisition.2.1 12 10,
    claim_no_raise_acquisition.2.2.1 12 10,
    claim_no_raise_acquisition.2.2.2 [⟨11, "ตุลาคม", 100⟩] 12 10 ?_⟩
  intro r hr
  simp only [List.mem_singleton] at hr
  subst hr
  decide

/-- C8: whenever any attempt's response contains a record whose subdivision
and station names both match exactly, the returned bank elevation is the
fixed constant 13.87 — regardless of any bank elevation in the response. -/
theorem claim_bank_constant (attempts : ℕ → Except Unit (List WStation))
    (h : ∃ i, i < get_sapphaya_retries ∧
       attemptHasMatch "โพนางดำออก" "สรรพยา" (attempts i) = true) :
    (get_sapphaya_data attempts).2 = some (13.87 : ℚ) := by
  have hconst : (13.87 : ℚ) = bank_level_constant := by
    rw [bank_level_constant, Rat.divInt_eq_div]
    norm_num
  rw [hconst]
  have main : ∀ (r a : ℕ),
      (∃ i, i < r ∧ attemptHasMatch "โพนางดำออก" "สรรพยา" (attempts (a + i)) = true) →
      (get_sapphaya_go attempts "โพนางดำออก" "สรรพยา" a r).1.2 = some bank_level_constant := by
    intro r
    induction r with
    | zero => intro a ⟨i, hi, _⟩; exact absurd hi (Nat.not_lt_zero i)
    | succ r ih =>
      intro a ⟨i, hi, hm⟩
      rcases hf : sapphaya_find "โพนางดำออก" "สรรพยา" (attempts a) with _ | it
      · rcases i with _ | j
        · exact absurd hf (by simpa using sapphaya_find_ne_none_of_hasMatch _ _ _ hm)
        · rw [sapphaya_go_step attempts _ _ a r hf]
          exact ih (a + 1) ⟨j, by omega, by
            have : a + 1 + j = a + (j + 1) := by omega
            rw [this]
            exact hm⟩
      · simp only [get_sapphaya_go, hf]
  have hr : ∃ i, i < get_sapphaya_retries ∧
      attemptHasMatch "โพนางดำออก" "สรรพยา" (attempts (0 + i)) = true := by
    simpa using h
  exact main get_sapphaya_retries 0 hr

/-- C8 witness: a response carrying its own bank elevation (9.99) still
yields the constant 13.87. -/
theorem claim_bank_constant_witness :
    (get_sapphaya_data (fun _ =>
       .ok [⟨"โพนางดำออก", "สรรพยา", some (.num (Rat.divInt 121 10)),
             some (Rat.divInt 999 100)⟩])).2 = some (13.87 : ℚ) :=
  claim_bank_constant _ ⟨0, by decide, rfl⟩

/-- C3: the dam-discharge extractor consults only its single HTTP response
(no retry); whenever the body yields a `var json_data = [...];` capture
whose parsed first element carries the storage value at
itc_water/C13/storage, the extractor returns exactly that value as a float
— for a numeric encoding directly, for a string encoding after stripping
thousands-separator commas; and on any failure (no response, pattern not
found, JSON parse error, missing key/null) it returns absent. -/
theorem claim_discharge_roundtrip :
    (∀ (s t : ℕ → Option String), s 0 = t 0 →
       fetch_chao_phraya_dam_discharge s = fetch_chao_phraya_dam_discharge t) ∧
    (∀ (responses : ℕ → Option String) (body : String) (g : List Char) (j : Json) (v : ℚ),
       responses 0 = some body →
       reSearchJsonData body.data = some g →
       json_loads (String.mk g) = some j →
       ((pyGetItem0 j).bind (fun x => pyGetItemKey x "itc_water")).bind
         (fun x => (pyGetItemKey x "C13").bind (fun x2 => pyGetItemKey x2 "storage")) =
           some (Json.num v) →
       fetch_chao_phraya_dam_discharge responses = some v) ∧
    (∀ (responses : ℕ → Option String) (body : String) (g : List Char) (j : Json)
       (w : String) (v : ℚ),
       responses 0 = some body →
       reSearchJsonData body.data = some g →
       json_loads (String.mk g) = some j →
       ((pyGetItem0 j).bind (fun x => pyGetItemKey x "itc_water")).bind
         (fun x => (pyGetItemKey x "C13").bind (fun x2 => pyGetItemKey x2 "storage")) =
           some (Json.str w) →
       pyFloat (String.mk (w.data.filter (fun c => c ≠ ','))) = some v →
       fetch_chao_phraya_dam_discharge responses = some v) ∧
    (∀ (responses : ℕ → Option String), responses 0 = none →
       fetch_chao_phraya_dam_discharge responses = none) ∧
    (∀ (responses : ℕ → Option String) (body : String), responses 0 = some body →
       reSearchJsonData body.data = none →
       fetch_chao_phraya_dam_discharge responses = none) ∧
    (∀ (responses : ℕ → Option String) (body : String) (g : List Char),
       responses 0 = some body →
       reSearchJsonData body.data = some g →
       json_loads (String.mk g) = none →
       fetch_chao_phraya_dam_discharge responses = none) ∧
    (∀ (responses : ℕ → Option String) (body : String) (g : List Char) (j : Json),
       responses 0 = some body →
       reSearchJsonData body.data = some g →
       json_loads (String.mk g) = some j →
       ((pyGetItem0 j).bind (fun x => pyGetItemKey x "itc_water")).bind
         (fun x => (pyGetItemKey x "C13").bind (fun x2 => pyGetItemKey x2 "storage")) =
           none →
       fetch_chao_phraya_dam_discharge responses = none) := by
  refine ⟨?_, ?_, ?_, ?_, ?_, ?_, ?_⟩
  · intro s t hst
    simp only [fetch_chao_phraya_dam_discharge, hst]
  · intro responses body g j v h1 h2 h3 h4
    simp only [fetch_chao_phraya_dam_discharge, h1, h2, h3, h4]
    rfl
  · intro responses body g j w v h1 h2 h3 h4 h5
    simp only [fetch_chao_phraya_dam_discharge, h1, h2, h3, h4, storageToFloat, h5]
  · intro responses h1
    simp only [fetch_chao_phraya_dam_discharge, h1]
  · intro responses body h1 h2
    simp only [fetch_chao_phraya_dam_discharge, h1, h2]
  · intro responses body g h1 h2 h3
    simp only [fetch_chao_phraya_dam_discharge, h1, h2, h3]
  · intro responses body g j h1 h2 h3 h4
    simp only [fetch_chao_phraya_dam_discharge, h1, h2, h3, h4]

/-- C3 witness: a synthetic HTML body with a comma-separated string
storage value round-trips to the float 2500, and a body without the
pattern yields absent. -/
theorem claim_discharge_roundtrip_witness :
    fetch_chao_phraya_dam_discharge (fun _ => some
      "<html>var json_data = [\x7b\"itc_water\": \x7b\"C13\": \x7b\"storage\": \"2,500\"\x7d\x7d\x7d];</html>") =
      some 2500 ∧
    fetch_chao_phraya_dam_discharge (fun _ => some "<html>no data here</html>") = none := by
  constructor
  · exact claim_discharge_roundtrip.2.2.1 _
      "<html>var json_data = [\x7b\"itc_water\": \x7b\"C13\": \x7b\"storage\": \"2,500\"\x7d\x7d\x7d];</html>"
      ("[\x7b\"itc_water\": \x7b\"C13\": \x7b\"storage\": \"2,500\"\x7d\x7d\x7d]".data)
      (Json.arr [Json.obj [("itc_water",
        Json.obj [("C13", Json.obj [("storage", Json.str "2,500")])])]])
      "2,500" 2500 rfl (by with_unfolding_all rfl) (by with_unfolding_all rfl)
      (by with_unfolding_all rfl) (by with_unfolding_all rfl)
  · exact claim_discharge_roundtrip.2.2.2.2.1 _ "<html>no data here</html>" rfl
      (by with_unfolding_all rfl)

theorem owLoop_humidity (today : String) (f : OWEntry → ℚ) :
    ∀ (entries : List OWEntry) (mt : ℚ) (rt : Option String),
      owLoop today (entries.map (fun e => ⟨e.dt_txt, e.temp, e.weather, f e⟩)) mt rt =
        owLoop today entries mt rt := by
  intro entries
  induction entries with
  | nil => intro mt rt; rfl
  | cons e rest ih =>
    intro mt rt
    simp only [List.map_cons, owLoop]
    split_ifs
    all_goals exact ih _ _

/-- C10 counterexample: the claim as stated is false on the code.  At a
forecast whose maximum temperature (38.5 °C) crosses the claimed 37 °C
threshold, the returned message is a fixed hot-weather advisory carrying
only the rounded temperature: it is identical for average humidity 20 %
and 95 %, so no heat-index estimate derived from temperature and humidity
is included (any standard polynomial approximation differs by tens of
degrees between those humidities and would change the message). -/
theorem claim_weather_heat_index_counterexample :
    (37 : ℚ) ≤ Rat.divInt 385 10 ∧
    get_openweather_alert
        (.ok [⟨"2026-10-12 12:00:00", some (Rat.divInt 385 10), [], 20⟩]) "2026-10-12" =
      get_openweather_alert
        (.ok [⟨"2026-10-12 12:00:00", some (Rat.divInt 385 10), [], 95⟩]) "2026-10-12" ∧
    get_openweather_alert
        (.ok [⟨"2026-10-12 12:00:00", some (Rat.divInt 385 10), [], 20⟩]) "2026-10-12" =
      "โพนางดำออกวันนี้... แดดแรงเหมือนโกรธใครมา! 🥵\n\nอุณหภูมิสูงสุดพุ่งไปถึง 38.5°C เลยนะ พกร่มพกน้ำให้พร้อม! 🍳" := by
  refine ⟨by with_unfolding_all decide, ?_, ?_⟩
  · with_unfolding_all rfl
  · with_unfolding_all rfl

/-- C10 amended: the hot-weather advisory triggers at maximum temperature
≥ 35 °C (not 37 °C) and embeds only `round(max_temp, 1)`; no heat index is
derived — the output is invariant under arbitrary changes to the entries'
humidity. -/
theorem claim_weather_hot_amended (entries : List OWEntry) (today : String)
    (h : 35 ≤ (owLoop today entries (-999) none).1) :
    (∃ rest, get_openweather_alert (.ok entries) today =
       owHotMessage (owLoop today entries (-999) none).1 ++ rest) ∧
    (∀ f : OWEntry → ℚ,
       get_openweather_alert
         (.ok (entries.map (fun e => ⟨e.dt_txt, e.temp, e.weather, f e⟩))) today =
       get_openweather_alert (.ok entries) today) := by
  constructor
  · simp only [get_openweather_alert]
    rw [if_pos h, if_neg (by simp)]
    obtain ⟨t, ht⟩ := intercalate_go_data "\n\n" _
      (owHotMessage (owLoop today entries (-999) none).1)
    exact ⟨String.mk t, String.ext ht⟩
  · intro f
    simp only [get_openweather_alert, owLoop_humidity]

/-- C10 amended witness: a 38.5 °C forecast entry yields the hot advisory
leading the alert, and replacing every humidity by 95 leaves the alert
unchanged. -/
theorem claim_weather_hot_amended_witness :
    (35 : ℚ) ≤ (owLoop "2026-10-12"
        [⟨"2026-10-12 12:00:00", some (Rat.divInt 385 10), [], 20⟩] (-999) none).1 ∧
    (∃ rest, get_openweather_alert
        (.ok [⟨"2026-10-12 12:00:00", some (Rat.divInt 385 10), [], 20⟩]) "2026-10-12" =
      owHotMessage (owLoop "2026-10-12"
        [⟨"2026-10-12 12:00:00", some (Rat.divInt 385 10), [], 20⟩] (-999) none).1 ++ rest) := by
  have h : (35 : ℚ) ≤ (owLoop "2026-10-12"
      [⟨"2026-10-12 12:00:00", some (Rat.divInt 385 10), [], 20⟩] (-999) none).1 := by
    with_unfolding_all decide
  exact ⟨h, (claim_weather_hot_amended _ _ h).1⟩

end Chainat

/-!
Model validation: concrete evaluations of the embedded functions against
the behaviour of the Python source on the same inputs.
-/
section ModelValidation
open Chainat
set_option maxRecDepth 4000
example : fmt2 (Rat.divInt 1387 100 - Rat.divInt 121 10) = "1.77" := by with_unfolding_all decide
example : fmt2 (Rat.divInt 1387 100 - Rat.divInt 115 10) = "2.37" := by with_unfolding_all decide
example : fmtCommaInt 12500 = "12,500" := by with_unfolding_all decide
example : fmtCommaRat 2500 = "2,500.0" := by with_unfolding_all decide
example : fmtRound1 (Rat.divInt 385 10) = "38.5" := by with_unfolding_all decide
example : tierOf (Rat.divInt 121 10) (some 2500) (Rat.divInt 1387 100) = .CRITICAL := by with_unfolding_all decide
example : tierOf (Rat.divInt 115 10) (some 1200) (Rat.divInt 1387 100) = .NORMAL := by with_unfolding_all decide
example : pyFloat "2500" = some 2500 := by with_unfolding_all rfl
example : pyFloat "2,500" = none := by with_unfolding_all rfl
example : pyFloat " 12.75 " = some (Rat.divInt 51 4) := by with_unfolding_all rfl
example : pyFloat "-1.5e2" = some (-150) := by with_unfolding_all rfl
example : json_loads "[1, 2]" = some (.arr [.num 1, .num 2]) := by with_unfolding_all rfl
example : json_loads "\x7b\"a\": null, \"a\": 3\x7d" = some (.obj [("a", .null), ("a", .num 3)]) := by with_unfolding_all rfl
example :
    fetch_chao_phraya_dam_discharge (fun _ => some
      "<html>var json_data = [\x7b\"itc_water\": \x7b\"C13\": \x7b\"storage\": \"2,500\"\x7d\x7d\x7d];</html>") =
    some 2500 := by with_unfolding_all rfl
example :
    fetch_chao_phraya_dam_discharge (fun _ => some
      "xx var json_data = [\x7b\"itc_water\": \x7b\"C13\": \x7b\"storage\": 2472.5\x7d\x7d\x7d]; yy") =
    some (Rat.divInt 24725 10) := by with_unfolding_all rfl
example :
    fetch_chao_phraya_dam_discharge (fun _ => some "<html>no data here</html>") = none := by
  with_unfolding_all decide
example :
    get_openweather_alert (.ok [⟨"2026-10-12 12:00:00", some (Rat.divInt 385 10), [], 20⟩])
      "2026-10-12" =
    "โพนางดำออกวันนี้... แดดแรงเหมือนโกรธใครมา! 🥵\n\nอุณหภูมิสูงสุดพุ่งไปถึง 38.5°C เลยนะ พกร่มพกน้ำให้พร้อม! 🍳" := by
  with_unfolding_all decide
example :
    get_openweather_alert (.ok [⟨"2026-10-12 12:00:00", some 30, [some 501], 20⟩])
      "2026-10-12" =
    "ชาวโพนางดำออก! ⛈️ เมฆกำลังตั้งตี้สาดน้ำ!\n\nมีแววฝนจะเทลงมาช่วงประมาณ 12:00 น. พกร่มไปด้วยนะ เดี๋ยวเปียก! 😎" := by
  with_unfolding_all decide
example :
    get_openweather_alert (.ok [⟨"2026-10-13 12:00:00", some 40, [], 20⟩]) "2026-10-12" =
    owDefaultMessage := by with_unfolding_all decide
example :
    get_historical_from_excel (some (.ok [⟨12, "ตุลาคม", 12500⟩])) 12 10 = some 12500 := by
  with_unfolding_all rfl
example :
    get_sapphaya_data (fun _ => .ok [⟨"โพนางดำออก", "สรรพยา", some (.str "12.10"), some 9⟩]) =
    (some (Rat.divInt 121 10), some (Rat.divInt 1387 100)) := by with_unfolding_all decide
example :
    get_sapphaya_trace (fun _ => .error ()) = [.request 0, .sleep 3, .request 1, .sleep 3, .request 2] := by
  with_unfolding_all decide
end ModelValidation
